import Mathlib

/-!
Shallow embedding of `src/prover/init.go` from taiko-client: the prover's
startup initialization (`setApprovalAmount`, `initProofSubmitters`,
`initL1Current`, `initEventHandlers`).  External collaborators (RPC client,
transaction sender, proof-submitter constructor) are modelled as environment
records whose fields give the outcome of each external call; each embedded
function returns its Go return value together with an explicit trace of the
observable calls it performed.
-/

namespace TaikoProver

/-- Errors are modelled by their message string, matching Go's `error` values
compared via `err.Error()` in the source. -/
abbrev Err := String

/-- `ethereum.NotFound` is `errors.New("not found")`; the source compares
`err.Error() == ethereum.NotFound.Error()`. -/
def notFoundError : Err := "not found"

/-- An L1 block header, identified abstractly. -/
structure Header where
  id : Nat
deriving DecidableEq, Repr

/-- The L1 origin record returned by `L1OriginByID`; the source reads only its
`L1BlockHash` field. -/
structure L1Origin where
  l1BlockHash : Nat
deriving DecidableEq, Repr

/-- The protocol state variables read by `initL1Current`:
`stateVars.A.GenesisHeight` and `stateVars.B.LastVerifiedBlockId`. -/
structure ProtocolStateVars where
  genesisHeight : Nat
  lastVerifiedBlockId : Nat
deriving DecidableEq, Repr

/-- The configuration fields of `p.cfg` read by `init.go`.  `Allowance` is a
`*big.Int`, hence `Option Int`. -/
structure Config where
  allowance : Option Int
  raikoHostEndpoint : String
  l1HttpEndpoint : String
  l1BeaconEndpoint : String
  l2HttpEndpoint : String
  dummy : Bool
  enableLivenessBondProof : Bool
  taikoL2Address : Nat
  graffiti : String
  backOffRetryInterval : Nat
  backOffMaxRetrys : Nat
  contesterMode : Bool
  proveUnassignedBlocks : Bool
  startingBlockID : Option Nat
deriving DecidableEq, Repr

/-! ### setApprovalAmount -/

/-- The observable external calls made by `setApprovalAmount`, in order. -/
inductive ApprovalCall
  | allowanceQuery
  | getOpts
  | approveCall
  | sendTx
  | confirmWait
deriving DecidableEq, Repr

/-- One value received from the sender's `TxToConfirmChannel(id)`:
`{Receipt, Err}`. -/
structure ConfirmResult where
  err : Option Err
  receiptTxHash : Nat
deriving DecidableEq, Repr

/-- Outcomes of the external calls made by `setApprovalAmount`:
the two `TaikoToken.Allowance` reads, `TaikoToken.Approve`,
`txSender.SendTransaction` and the confirmation channel. -/
structure ApprovalEnv where
  allowanceBefore : Except Err Int
  approveResult : Except Err Nat
  sendTransactionResult : Nat → Except Err Nat
  txToConfirm : Nat → ConfirmResult
  allowanceAfter : Except Err Int

/-- Embedding of `Prover.setApprovalAmount`.  Returns the Go error result
(`none` = `nil`) together with the ordered trace of external calls.
Mirrors the source: skip when `Allowance` is unset or not `> 0`
(`Cmp(common.Big0) != 1`); query the existing allowance; skip when it is
`>= cfg.Allowance`; otherwise `GetOpts`, `Approve`, `SendTransaction`,
block on the confirmation channel, then re-query the allowance. -/
def setApprovalAmount (cfg : Config) (env : ApprovalEnv) :
    Option Err × List ApprovalCall :=
  match cfg.allowance with
  | none => (none, [])
  | some amount =>
    if amount ≤ 0 then (none, [])
    else
      match env.allowanceBefore with
      | .error e => (some e, [.allowanceQuery])
      | .ok allowance =>
        if amount ≤ allowance then (none, [.allowanceQuery])
        else
          match env.approveResult with
          | .error e => (some e, [.allowanceQuery, .getOpts, .approveCall])
          | .ok tx =>
            match env.sendTransactionResult tx with
            | .error e =>
                (some e, [.allowanceQuery, .getOpts, .approveCall, .sendTx])
            | .ok id =>
              match (env.txToConfirm id).err with
              | some e =>
                  (some e,
                   [.allowanceQuery, .getOpts, .approveCall, .sendTx,
                    .confirmWait])
              | none =>
                match env.allowanceAfter with
                | .error e =>
                    (some e,
                     [.allowanceQuery, .getOpts, .approveCall, .sendTx,
                      .confirmWait, .allowanceQuery])
                | .ok _ =>
                    (none,
                     [.allowanceQuery, .getOpts, .approveCall, .sendTx,
                      .confirmWait, .allowanceQuery])

/-! ### initProofSubmitters -/

/-- Modelled from the spec: the tier identifier constants live in
`bindings/encoding`, outside `src/`; the spec names three tiers
(optimistic, attested/SGX, guardian).  Only their distinctness matters
to `init.go`. -/
def TierOptimisticID : Nat := 100

/-- Modelled from the spec: see `TierOptimisticID`. -/
def TierSgxID : Nat := 200

/-- Modelled from the spec: see `TierOptimisticID`. -/
def TierGuardianID : Nat := 1000

/-- A protocol tier; `initProofSubmitters` reads only its `ID`. -/
structure Tier where
  id : Nat
deriving DecidableEq, Repr

/-- The proof producer constructed by the `switch tier.ID` in
`initProofSubmitters`, with the configuration each variant captures. -/
inductive ProofProducer
  | optimistic
  | sgx (raikoHostEndpoint l1Endpoint l1BeaconEndpoint l2Endpoint : String)
        (dummy : Bool)
  | guardian (enableLivenessBondProof : Bool)
deriving DecidableEq, Repr

/-- The `switch tier.ID` of `initProofSubmitters`: producer per tier ID, or
the `"unsupported tier: %d"` error for any other ID. -/
def producerForTier (cfg : Config) (id : Nat) : Except Err ProofProducer :=
  if id = TierOptimisticID then .ok .optimistic
  else if id = TierSgxID then
    .ok (.sgx cfg.raikoHostEndpoint cfg.l1HttpEndpoint cfg.l1BeaconEndpoint
      cfg.l2HttpEndpoint cfg.dummy)
  else if id = TierGuardianID then
    .ok (.guardian cfg.enableLivenessBondProof)
  else .error ("unsupported tier: " ++ toString id)

/-- Whether a tier ID is one of the three recognized by the switch. -/
def supportedTier (id : Nat) : Bool :=
  (id == TierOptimisticID) || (id == TierSgxID) || (id == TierGuardianID)

/-- A constructed proof submitter: `NewProofSubmitter` wraps the producer
together with the configured TaikoL2 address and graffiti tag. -/
structure Submitter where
  producer : ProofProducer
  taikoL2Address : Nat
  graffiti : String
deriving DecidableEq, Repr

/-- Outcome of the external `proofSubmitter.NewProofSubmitter` constructor
(defined outside `src/`): `none` means construction succeeds. -/
structure SubmitterEnv where
  newProofSubmitterErr : ProofProducer → Option Err

/-- Embedding of `Prover.initProofSubmitters`.  Returns the Go error result
together with the list of submitters appended to `p.proofSubmitters`
(submitters appended before an error are kept, as the Go loop mutates the
field as it goes). -/
def initProofSubmitters (cfg : Config) (senv : SubmitterEnv) :
    List Tier → Option Err × List Submitter
  | [] => (none, [])
  | t :: ts =>
    match producerForTier cfg t.id with
    | .error e => (some e, [])
    | .ok producer =>
      match senv.newProofSubmitterErr producer with
      | some e => (some e, [])
      | none =>
        let rest := initProofSubmitters cfg senv ts
        (rest.fst, ⟨producer, cfg.taikoL2Address, cfg.graffiti⟩ :: rest.snd)

/-! ### initL1Current -/

/-- Outcomes of the external calls made by `initL1Current`:
`WaitTillL2ExecutionEngineSynced`, `GetProtocolStateVariables`,
`L1.HeaderByNumber` (`none` = nil number, i.e. the current head),
`L2.L1OriginByID` and `L1.HeaderByHash`. -/
structure L1CurrentEnv where
  waitTillL2ExecutionEngineSynced : Option Err
  getProtocolStateVariables : Except Err ProtocolStateVars
  headerByNumber : Option Nat → Except Err Header
  l1OriginByID : Nat → Except Err L1Origin
  headerByHash : Nat → Except Err Header

/-- The observable outcome of one `initL1Current` run: the Go error result,
the headers passed to `sharedState.SetL1Current` (in order), the number of
`log.Warn` emissions, and the value stored in `p.genesisHeightL1`. -/
structure L1CurrentResult where
  err : Option Err
  setL1CurrentCalls : List Header
  warnings : Nat
  genesisHeightL1 : Nat
deriving DecidableEq, Repr

/-- The tail of `initL1Current` from the `L1OriginByID` lookup on: on the
`ethereum.NotFound` error use the current L1 head with a warning; on any
other error return it; on success resolve the header by the origin's
`L1BlockHash`. -/
def initL1CurrentFromOrigin (env : L1CurrentEnv) (g sid : Nat) :
    L1CurrentResult :=
  match env.l1OriginByID sid with
  | .error e =>
    if e = notFoundError then
      match env.headerByNumber none with
      | .error e2 => ⟨some e2, [], 1, g⟩
      | .ok h => ⟨none, [h], 1, g⟩
    else ⟨some e, [], 0, g⟩
  | .ok origin =>
    match env.headerByHash origin.l1BlockHash with
    | .error e => ⟨some e, [], 0, g⟩
    | .ok h => ⟨none, [h], 0, g⟩

/-- Embedding of `Prover.initL1Current`.  Mirrors the source: wait for the
execution engine to sync, read the protocol state variables (recording
`genesisHeightL1`); when no explicit starting block ID is supplied and
`LastVerifiedBlockId == 0`, set the cursor to the header at the genesis
height; otherwise (explicit ID, or the last verified block ID) resolve
through the L1-origin lookup. -/
def initL1Current (env : L1CurrentEnv) (startingBlockID : Option Nat) :
    L1CurrentResult :=
  match env.waitTillL2ExecutionEngineSynced with
  | some e => ⟨some e, [], 0, 0⟩
  | none =>
    match env.getProtocolStateVariables with
    | .error e => ⟨some e, [], 0, 0⟩
    | .ok stateVars =>
      match startingBlockID with
      | none =>
        if stateVars.lastVerifiedBlockId = 0 then
          match env.headerByNumber (some stateVars.genesisHeight) with
          | .error e => ⟨some e, [], 0, stateVars.genesisHeight⟩
          | .ok h => ⟨none, [h], 0, stateVars.genesisHeight⟩
        else
          initL1CurrentFromOrigin env stateVars.genesisHeight
            stateVars.lastVerifiedBlockId
      | some sid => initL1CurrentFromOrigin env stateVars.genesisHeight sid

/-! ### initEventHandlers -/

/-- The options record `NewBlockProposedEventHandlerOps` built by
`initEventHandlers` (channel and RPC fields elided: they carry no data
relevant to the claims). -/
structure BlockProposedEventHandlerOps where
  proverAddress : Nat
  genesisHeightL1 : Nat
  backOffRetryInterval : Nat
  backOffMaxRetrys : Nat
  contesterMode : Bool
  proveUnassignedBlocks : Bool
deriving DecidableEq, Repr

/-- The BlockProposed handler: the guardian variant wraps the same options. -/
inductive BlockProposedHandler
  | normal (o : BlockProposedEventHandlerOps)
  | guardian (o : BlockProposedEventHandlerOps)
deriving DecidableEq, Repr

/-- The options carried by either BlockProposed handler variant. -/
def BlockProposedHandler.opts : BlockProposedHandler →
    BlockProposedEventHandlerOps
  | .normal o => o
  | .guardian o => o

/-- The five event handlers wired by `initEventHandlers`, modelled by the
constructor arguments each receives in the source. -/
structure EventHandlers where
  blockProposedHandler : BlockProposedHandler
  transitionProvedContesterMode : Bool
  transitionContestedContesterMode : Bool
  assignmentExpiredProverAddress : Nat
  assignmentExpiredContesterMode : Bool
deriving DecidableEq, Repr

/-- Embedding of `Prover.initEventHandlers`: a pure constructor wiring the
configuration into the five handlers; the guardian-prover flag selects the
BlockProposed variant. -/
def initEventHandlers (cfg : Config) (isGuardianProver : Bool)
    (proverAddress genesisHeightL1 : Nat) : EventHandlers :=
  { blockProposedHandler :=
      if isGuardianProver then
        .guardian ⟨proverAddress, genesisHeightL1, cfg.backOffRetryInterval,
          cfg.backOffMaxRetrys, cfg.contesterMode, cfg.proveUnassignedBlocks⟩
      else
        .normal ⟨proverAddress, genesisHeightL1, cfg.backOffRetryInterval,
          cfg.backOffMaxRetrys, cfg.contesterMode, cfg.proveUnassignedBlocks⟩
    transitionProvedContesterMode := cfg.contesterMode
    transitionContestedContesterMode := cfg.contesterMode
    assignmentExpiredProverAddress := proverAddress
    assignmentExpiredContesterMode := cfg.contesterMode }

/-! ### Startup orchestration -/

/-- Observable startup events: a `SetL1Current` write, or the wiring of the
event-handler graph. -/
inductive StartupEvent
  | setL1CurrentEvent (h : Header)
  | handlersWired
deriving DecidableEq, Repr

/-- The result of the modelled startup sequence: error, ordered event trace,
and the wired handlers (`none` when startup aborted before wiring). -/
structure StartupResult where
  err : Option Err
  events : List StartupEvent
  handlers : Option EventHandlers
deriving DecidableEq, Repr

/-- Modelled from the spec: the startup orchestration (in `prover.go`) is not
under `src/`.  Per the spec, producer-factory construction fails fast at
startup, `l1Current` "is set exactly once, synchronously, before the
event-handler graph is wired", and any startup error aborts before wiring:
submitters are built, then the cursor is bootstrapped, then — only on
success — `initEventHandlers` wires the handler graph. -/
def startup (cfg : Config) (senv : SubmitterEnv) (lenv : L1CurrentEnv)
    (tiers : List Tier) (isGuardianProver : Bool) (proverAddress : Nat) :
    StartupResult :=
  match (initProofSubmitters cfg senv tiers).fst with
  | some e => ⟨some e, [], none⟩
  | none =>
    let r := initL1Current lenv cfg.startingBlockID
    match r.err with
    | some e => ⟨some e, r.setL1CurrentCalls.map .setL1CurrentEvent, none⟩
    | none =>
      ⟨none, r.setL1CurrentCalls.map .setL1CurrentEvent ++ [.handlersWired],
       some (initEventHandlers cfg isGuardianProver proverAddress
         r.genesisHeightL1)⟩

/-- A concrete configuration used by witness instantiations. -/
def cfgW : Config :=
  { allowance := some 100
    raikoHostEndpoint := "raiko"
    l1HttpEndpoint := "l1"
    l1BeaconEndpoint := "beacon"
    l2HttpEndpoint := "l2"
    dummy := false
    enableLivenessBondProof := false
    taikoL2Address := 7
    graffiti := "tag"
    backOffRetryInterval := 12
    backOffMaxRetrys := 10
    contesterMode := false
    proveUnassignedBlocks := true
    startingBlockID := none }

/-- A concrete approval environment in which the existing allowance is `0`,
`Approve` and `SendTransaction` succeed, confirmation succeeds, and the
allowance re-query succeeds. -/
def approvalEnvW : ApprovalEnv :=
  { allowanceBefore := .ok 0
    approveResult := .ok 41
    sendTransactionResult := fun _ => .ok 55
    txToConfirm := fun _ => ⟨none, 333⟩
    allowanceAfter := .ok 100 }

/-- A concrete L1-bootstrap environment: genesis height 6, nothing verified
yet, every lookup succeeding. -/
def lenvW : L1CurrentEnv :=
  { waitTillL2ExecutionEngineSynced := none
    getProtocolStateVariables := .ok ⟨6, 0⟩
    headerByNumber := fun _ => .ok ⟨7⟩
    l1OriginByID := fun _ => .ok ⟨77⟩
    headerByHash := fun _ => .ok ⟨8⟩ }

/-! ### Theorems -/

/-- C1: when no explicit starting block ID is supplied and
`lastVerifiedBlockID = 0`, `initL1Current` sets the cursor to the L1 header
returned by `HeaderByNumber(genesisHeightL1)` and returns success (assuming
the sync wait, state read and header lookup succeed). -/
theorem initL1Current_genesis_path
    (env : L1CurrentEnv) (sv : ProtocolStateVars) (h : Header)
    (hsync : env.waitTillL2ExecutionEngineSynced = none)
    (hsv : env.getProtocolStateVariables = .ok sv)
    (hzero : sv.lastVerifiedBlockId = 0)
    (hhdr : env.headerByNumber (some sv.genesisHeight) = .ok h) :
    initL1Current env none = ⟨none, [h], 0, sv.genesisHeight⟩ := by
  simp [initL1Current, hsync, hsv, hzero, hhdr]

/-- Witness for C1 at a concrete environment. -/
theorem initL1Current_genesis_path_witness :
    initL1Current
      { waitTillL2ExecutionEngineSynced := none
        getProtocolStateVariables := .ok ⟨5, 0⟩
        headerByNumber := fun _ => .ok ⟨7⟩
        l1OriginByID := fun _ => .error "boom"
        headerByHash := fun _ => .error "boom" }
      none = ⟨none, [⟨7⟩], 0, 5⟩ :=
  initL1Current_genesis_path _ ⟨5, 0⟩ ⟨7⟩ rfl rfl rfl rfl

/-- C2: when the L1-origin lookup for the starting block ID fails with the
"not found" error, `initL1Current` sets the cursor to the current L1 head
(HeaderByNumber with nil number), emits a warning, and returns success;
any other lookup error is returned and the cursor is not set. -/
theorem initL1Current_origin_lookup_errors
    (env : L1CurrentEnv) (sv : ProtocolStateVars) (sid : Nat) (head : Header)
    (hsync : env.waitTillL2ExecutionEngineSynced = none)
    (hsv : env.getProtocolStateVariables = .ok sv) :
    (env.l1OriginByID sid = .error notFoundError →
      env.headerByNumber none = .ok head →
      initL1Current env (some sid) = ⟨none, [head], 1, sv.genesisHeight⟩) ∧
    (∀ e, env.l1OriginByID sid = .error e → e ≠ notFoundError →
      initL1Current env (some sid) = ⟨some e, [], 0, sv.genesisHeight⟩) := by
  constructor
  · intro hnf hhead
    simp [initL1Current, initL1CurrentFromOrigin, hsync, hsv, hnf, hhead]
  · intro e herr hne
    simp [initL1Current, initL1CurrentFromOrigin, hsync, hsv, herr, hne]

/-- Witness for C2 at a concrete environment whose origin lookup reports
"not found". -/
theorem initL1Current_origin_lookup_errors_witness :
    initL1Current
      { waitTillL2ExecutionEngineSynced := none
        getProtocolStateVariables := .ok ⟨5, 3⟩
        headerByNumber := fun n =>
          match n with
          | none => .ok ⟨9⟩
          | some _ => .ok ⟨1⟩
        l1OriginByID := fun _ => .error notFoundError
        headerByHash := fun _ => .error "boom" }
      (some 3) = ⟨none, [⟨9⟩], 1, 5⟩ :=
  (initL1Current_origin_lookup_errors _ ⟨5, 3⟩ 3 ⟨9⟩ rfl rfl).1 rfl rfl

/-- C6 counterexample: with an explicit starting block ID of `0`, the code
does not take the genesis-header path — it performs the L1-origin lookup
and resolves the cursor by the origin's block hash.  Here the header at
the genesis height is `⟨100⟩`, yet the cursor is set to `⟨200⟩`. -/
theorem initL1Current_explicit_zero_counterexample :
    initL1Current
      { waitTillL2ExecutionEngineSynced := none
        getProtocolStateVariables := .ok ⟨5, 0⟩
        headerByNumber := fun n =>
          match n with
          | some 5 => .ok ⟨100⟩
          | _ => .ok ⟨42⟩
        l1OriginByID := fun _ => .ok ⟨77⟩
        headerByHash := fun _ => .ok ⟨200⟩ }
      (some 0) = ⟨none, [⟨200⟩], 0, 5⟩ ∧
    (⟨200⟩ : Header) ≠ ⟨100⟩ := by
  constructor
  · rfl
  · decide

/-- C6 (amended): an explicit non-nil starting block ID is always resolved
through the L1-origin lookup (even when it is zero); the genesis-header
shortcut applies exactly when no explicit ID is supplied and
`lastVerifiedBlockID = 0`; otherwise the last verified block ID is looked
up. -/
theorem initL1Current_starting_id_selection
    (env : L1CurrentEnv) (sv : ProtocolStateVars)
    (hsync : env.waitTillL2ExecutionEngineSynced = none)
    (hsv : env.getProtocolStateVariables = .ok sv) :
    (∀ sid : Nat, initL1Current env (some sid) =
      initL1CurrentFromOrigin env sv.genesisHeight sid) ∧
    (sv.lastVerifiedBlockId = 0 →
      initL1Current env none =
        match env.headerByNumber (some sv.genesisHeight) with
        | .error e => ⟨some e, [], 0, sv.genesisHeight⟩
        | .ok h => ⟨none, [h], 0, sv.genesisHeight⟩) ∧
    (sv.lastVerifiedBlockId ≠ 0 →
      initL1Current env none =
        initL1CurrentFromOrigin env sv.genesisHeight
          sv.lastVerifiedBlockId) := by
  refine ⟨fun sid => ?_, fun hz => ?_, fun hnz => ?_⟩
  · simp [initL1Current, hsync, hsv]
  · simp [initL1Current, hsync, hsv, hz]
  · simp [initL1Current, hsync, hsv, hnz]

/-- Witness for the amended C6 at a concrete environment. -/
theorem initL1Current_starting_id_selection_witness :
    initL1Current
      { waitTillL2ExecutionEngineSynced := none
        getProtocolStateVariables := .ok ⟨5, 2⟩
        headerByNumber := fun _ => .ok ⟨1⟩
        l1OriginByID := fun _ => .ok ⟨77⟩
        headerByHash := fun _ => .ok ⟨200⟩ }
      (some 0) =
    initL1CurrentFromOrigin
      { waitTillL2ExecutionEngineSynced := none
        getProtocolStateVariables := .ok ⟨5, 2⟩
        headerByNumber := fun _ => .ok ⟨1⟩
        l1OriginByID := fun _ => .ok ⟨77⟩
        headerByHash := fun _ => .ok ⟨200⟩ } 5 0 :=
  (initL1Current_starting_id_selection _ ⟨5, 2⟩ rfl rfl).1 0

/-- C4: when the configured allowance is positive and the existing allowance
is strictly below it, exactly one `Approve` transaction is built and sent;
a confirmation error is returned (with no second `SendTransaction`), and
the function returns success only if confirmation succeeded. -/
theorem setApprovalAmount_single_approve
    (cfg : Config) (env : ApprovalEnv) (amount a : Int) (tx id : Nat)
    (hcfg : cfg.allowance = some amount) (hpos : 0 < amount)
    (hallow : env.allowanceBefore = .ok a) (hlt : a < amount)
    (happrove : env.approveResult = .ok tx)
    (hsend : env.sendTransactionResult tx = .ok id) :
    ((setApprovalAmount cfg env).snd.count .approveCall = 1 ∧
     (setApprovalAmount cfg env).snd.count .sendTx = 1) ∧
    (∀ e, (env.txToConfirm id).err = some e →
      (setApprovalAmount cfg env).fst = some e) ∧
    ((setApprovalAmount cfg env).fst = none →
      (env.txToConfirm id).err = none) := by
  have h1 : ¬ amount ≤ 0 := not_le.mpr hpos
  have h2 : ¬ amount ≤ a := not_le.mpr hlt
  rcases hc : (env.txToConfirm id).err with _ | e0
  · rcases ha : env.allowanceAfter with e2 | v
    · have heq : setApprovalAmount cfg env =
          (some e2, [.allowanceQuery, .getOpts, .approveCall, .sendTx,
            .confirmWait, .allowanceQuery]) := by
        simp [setApprovalAmount, hcfg, h1, hallow, h2, happrove, hsend, hc, ha]
      have hsnd : (setApprovalAmount cfg env).snd =
          [.allowanceQuery, .getOpts, .approveCall, .sendTx,
           .confirmWait, .allowanceQuery] := by rw [heq]
      refine ⟨⟨?_, ?_⟩, ?_, ?_⟩
      · rw [hsnd]; decide
      · rw [hsnd]; decide
      · intro e he
        simp at he
      · intro _
        rfl
    · have heq : setApprovalAmount cfg env =
          (none, [.allowanceQuery, .getOpts, .approveCall, .sendTx,
            .confirmWait, .allowanceQuery]) := by
        simp [setApprovalAmount, hcfg, h1, hallow, h2, happrove, hsend, hc, ha]
      have hsnd : (setApprovalAmount cfg env).snd =
          [.allowanceQuery, .getOpts, .approveCall, .sendTx,
           .confirmWait, .allowanceQuery] := by rw [heq]
      refine ⟨⟨?_, ?_⟩, ?_, ?_⟩
      · rw [hsnd]; decide
      · rw [hsnd]; decide
      · intro e he
        simp at he
      · intro _
        rfl
  · have heq : setApprovalAmount cfg env =
        (some e0, [.allowanceQuery, .getOpts, .approveCall, .sendTx,
          .confirmWait]) := by
      simp [setApprovalAmount, hcfg, h1, hallow, h2, happrove, hsend, hc]
    have hsnd : (setApprovalAmount cfg env).snd =
        [.allowanceQuery, .getOpts, .approveCall, .sendTx,
         .confirmWait] := by rw [heq]
    refine ⟨⟨?_, ?_⟩, ?_, ?_⟩
    · rw [hsnd]; decide
    · rw [hsnd]; decide
    · intro e he
      injection he with he
      subst he
      simp [heq]
    · intro hn
      rw [heq] at hn
      simp at hn

/-- Witness for C4 at a concrete environment (existing allowance 0,
configured allowance 100, confirmation succeeds). -/
theorem setApprovalAmount_single_approve_witness :
    ((setApprovalAmount cfgW approvalEnvW).snd.count .approveCall = 1 ∧
     (setApprovalAmount cfgW approvalEnvW).snd.count .sendTx = 1) ∧
    (∀ e, (approvalEnvW.txToConfirm 55).err = some e →
      (setApprovalAmount cfgW approvalEnvW).fst = some e) ∧
    ((setApprovalAmount cfgW approvalEnvW).fst = none →
      (approvalEnvW.txToConfirm 55).err = none) :=
  setApprovalAmount_single_approve cfgW approvalEnvW 100 0 41 55
    rfl (by decide) rfl (by decide) rfl rfl

/-- C5: when the existing allowance is at least the configured allowance,
no `Approve` is built and nothing is sent, and the function returns
success. -/
theorem setApprovalAmount_skip_sufficient
    (cfg : Config) (env : ApprovalEnv) (amount a : Int)
    (hcfg : cfg.allowance = some amount)
    (hallow : env.allowanceBefore = .ok a) (hge : amount ≤ a) :
    (setApprovalAmount cfg env).fst = none ∧
    (setApprovalAmount cfg env).snd.count .approveCall = 0 ∧
    (setApprovalAmount cfg env).snd.count .sendTx = 0 := by
  by_cases h0 : amount ≤ 0
  · have heq : setApprovalAmount cfg env = (none, []) := by
      simp [setApprovalAmount, hcfg, h0]
    rw [heq]
    exact ⟨rfl, by decide, by decide⟩
  · have heq : setApprovalAmount cfg env = (none, [.allowanceQuery]) := by
      simp [setApprovalAmount, hcfg, h0, hallow, hge]
    rw [heq]
    exact ⟨rfl, by decide, by decide⟩

/-- Witness for C5: configured allowance 100, existing allowance 150. -/
theorem setApprovalAmount_skip_sufficient_witness :
    (setApprovalAmount cfgW
      { approvalEnvW with allowanceBefore := .ok 150 }).fst = none ∧
    (setApprovalAmount cfgW
      { approvalEnvW with allowanceBefore := .ok 150 }).snd.count
        .approveCall = 0 ∧
    (setApprovalAmount cfgW
      { approvalEnvW with allowanceBefore := .ok 150 }).snd.count
        .sendTx = 0 :=
  setApprovalAmount_skip_sufficient cfgW _ 100 150 rfl rfl (by decide)

/-- C9: when the allowance setting is absent or not strictly positive,
`setApprovalAmount` returns success immediately without performing any
external call. -/
theorem setApprovalAmount_skip_unset
    (cfg : Config) (env : ApprovalEnv)
    (h : cfg.allowance = none ∨ ∃ a, cfg.allowance = some a ∧ a ≤ 0) :
    setApprovalAmount cfg env = (none, []) := by
  rcases h with h | ⟨a, ha, hle⟩
  · simp [setApprovalAmount, h]
  · simp [setApprovalAmount, ha, hle]

/-- Witness for C9 with a zero configured allowance. -/
theorem setApprovalAmount_skip_unset_witness :
    setApprovalAmount { cfgW with allowance := some 0 } approvalEnvW =
      (none, []) :=
  setApprovalAmount_skip_unset _ approvalEnvW (Or.inr ⟨0, rfl, le_refl 0⟩)

/-- C10: after a confirmed `Approve`, `setApprovalAmount` re-queries the
allowance (two allowance queries in the trace) and returns the re-query's
error when it fails, even though the approval transaction was confirmed. -/
theorem setApprovalAmount_requery_after_confirm
    (cfg : Config) (env : ApprovalEnv) (amount a : Int) (tx id : Nat)
    (hcfg : cfg.allowance = some amount) (hpos : 0 < amount)
    (hallow : env.allowanceBefore = .ok a) (hlt : a < amount)
    (happrove : env.approveResult = .ok tx)
    (hsend : env.sendTransactionResult tx = .ok id)
    (hconfirm : (env.txToConfirm id).err = none) :
    (setApprovalAmount cfg env).snd.count .allowanceQuery = 2 ∧
    (∀ e, env.allowanceAfter = .error e →
      (setApprovalAmount cfg env).fst = some e) := by
  have h1 : ¬ amount ≤ 0 := not_le.mpr hpos
  have h2 : ¬ amount ≤ a := not_le.mpr hlt
  rcases ha : env.allowanceAfter with e2 | v
  · have heq : setApprovalAmount cfg env =
        (some e2, [.allowanceQuery, .getOpts, .approveCall, .sendTx,
          .confirmWait, .allowanceQuery]) := by
      simp [setApprovalAmount, hcfg, h1, hallow, h2, happrove, hsend,
        hconfirm, ha]
    have hsnd : (setApprovalAmount cfg env).snd =
        [.allowanceQuery, .getOpts, .approveCall, .sendTx,
         .confirmWait, .allowanceQuery] := by rw [heq]
    refine ⟨by rw [hsnd]; decide, ?_⟩
    intro e he
    injection he with he
    subst he
    simp [heq]
  · have heq : setApprovalAmount cfg env =
        (none, [.allowanceQuery, .getOpts, .approveCall, .sendTx,
          .confirmWait, .allowanceQuery]) := by
      simp [setApprovalAmount, hcfg, h1, hallow, h2, happrove, hsend,
        hconfirm, ha]
    have hsnd : (setApprovalAmount cfg env).snd =
        [.allowanceQuery, .getOpts, .approveCall, .sendTx,
         .confirmWait, .allowanceQuery] := by rw [heq]
    refine ⟨by rw [hsnd]; decide, ?_⟩
    intro e he
    simp at he

/-- Witness for C10 at a concrete environment whose allowance re-query
fails after a confirmed approval. -/
theorem setApprovalAmount_requery_after_confirm_witness :
    (setApprovalAmount cfgW
      { approvalEnvW with allowanceAfter := .error "rpc down" }).snd.count
        .allowanceQuery = 2 ∧
    (∀ e,
      ({ approvalEnvW with
          allowanceAfter := .error "rpc down" } : ApprovalEnv).allowanceAfter
        = .error e →
      (setApprovalAmount cfgW
        { approvalEnvW with allowanceAfter := .error "rpc down" }).fst
        = some e) :=
  setApprovalAmount_requery_after_confirm cfgW _ 100 0 41 55
    rfl (by decide) rfl (by decide) rfl rfl rfl

/-- A supported tier ID yields a producer from the switch. -/
theorem producerForTier_supported (cfg : Config) (id : Nat)
    (h : supportedTier id = true) :
    ∃ pr, producerForTier cfg id = .ok pr := by
  simp only [supportedTier, Bool.or_eq_true, beq_iff_eq] at h
  rcases h with (h | h) | h <;> subst h <;> exact ⟨_, rfl⟩

/-- An unsupported tier ID yields the "unsupported tier" error from the
switch. -/
theorem producerForTier_unsupported (cfg : Config) (id : Nat)
    (h : supportedTier id = false) :
    producerForTier cfg id = .error ("unsupported tier: " ++ toString id) := by
  simp only [supportedTier, Bool.or_eq_false_iff, beq_eq_false_iff_ne,
    ne_eq] at h
  simp [producerForTier, h.1.1, h.1.2, h.2]

/-- When every tier is supported and submitter construction succeeds,
`initProofSubmitters` succeeds with one submitter per tier. -/
theorem initProofSubmitters_all_supported (cfg : Config) (senv : SubmitterEnv)
    (hok : ∀ pr, senv.newProofSubmitterErr pr = none)
    (tiers : List Tier) (hall : ∀ t ∈ tiers, supportedTier t.id = true) :
    (initProofSubmitters cfg senv tiers).fst = none ∧
    (initProofSubmitters cfg senv tiers).snd.length = tiers.length := by
  induction tiers with
  | nil => simp [initProofSubmitters]
  | cons t ts ih =>
    obtain ⟨pr, hpr⟩ :=
      producerForTier_supported cfg t.id (hall t (List.mem_cons_self t ts))
    have ih2 := ih (fun u hu => hall u (List.mem_cons_of_mem t hu))
    simp [initProofSubmitters, hpr, hok, ih2.1, ih2.2]

/-- When some tier is unsupported, `initProofSubmitters` fails with the
"unsupported tier" error of an unsupported tier, and every submitter it
did append belongs to a supported tier. -/
theorem initProofSubmitters_unsupported (cfg : Config) (senv : SubmitterEnv)
    (hok : ∀ pr, senv.newProofSubmitterErr pr = none)
    (tiers : List Tier) (hbad : ∃ t ∈ tiers, supportedTier t.id = false) :
    ∃ bt ∈ tiers, supportedTier bt.id = false ∧
      (initProofSubmitters cfg senv tiers).fst =
        some ("unsupported tier: " ++ toString bt.id) ∧
      ∀ s ∈ (initProofSubmitters cfg senv tiers).snd,
        ∃ u ∈ tiers, supportedTier u.id = true ∧
          producerForTier cfg u.id = .ok s.producer := by
  induction tiers with
  | nil => simp at hbad
  | cons t ts ih =>
    by_cases hs : supportedTier t.id = true
    · have hbad2 : ∃ u ∈ ts, supportedTier u.id = false := by
        rcases hbad with ⟨u, hu, hf⟩
        rcases List.mem_cons.mp hu with rfl | hu2
        · rw [hs] at hf
          cases hf
        · exact ⟨u, hu2, hf⟩
      obtain ⟨pr, hpr⟩ := producerForTier_supported cfg t.id hs
      obtain ⟨bt, hbt, hbf, hfst, hsnd⟩ := ih hbad2
      refine ⟨bt, List.mem_cons_of_mem t hbt, hbf, ?_, ?_⟩
      · simp [initProofSubmitters, hpr, hok, hfst]
      · intro s hsmem
        simp only [initProofSubmitters, hpr, hok] at hsmem
        rcases List.mem_cons.mp hsmem with rfl | hsmem2
        · exact ⟨t, List.mem_cons_self t ts, hs, hpr⟩
        · obtain ⟨u, hu, hsu, hpu⟩ := hsnd s hsmem2
          exact ⟨u, List.mem_cons_of_mem t hu, hsu, hpu⟩
    · have hf : supportedTier t.id = false := Bool.eq_false_iff.mpr hs
      refine ⟨t, List.mem_cons_self t ts, hf, ?_, ?_⟩
      · simp [initProofSubmitters, producerForTier_unsupported cfg t.id hf]
      · intro s hsmem
        simp [initProofSubmitters,
          producerForTier_unsupported cfg t.id hf] at hsmem

/-- C3: a tier catalog containing a tier ID other than Optimistic, SGX or
Guardian makes `initProofSubmitters` fail with the "unsupported tier"
error before any event handler is wired, with no submitter constructed
for the unsupported tier; a catalog of only recognized IDs yields success
with one submitter per tier (given the submitter constructor succeeds). -/
theorem initProofSubmitters_tier_validation
    (cfg : Config) (senv : SubmitterEnv) (tiers : List Tier)
    (hok : ∀ pr, senv.newProofSubmitterErr pr = none) :
    ((∀ t ∈ tiers, supportedTier t.id = true) →
      (initProofSubmitters cfg senv tiers).fst = none ∧
      (initProofSubmitters cfg senv tiers).snd.length = tiers.length) ∧
    ((∃ t ∈ tiers, supportedTier t.id = false) →
      (∃ bt ∈ tiers, supportedTier bt.id = false ∧
        (initProofSubmitters cfg senv tiers).fst =
          some ("unsupported tier: " ++ toString bt.id) ∧
        ∀ s ∈ (initProofSubmitters cfg senv tiers).snd,
          ∃ u ∈ tiers, supportedTier u.id = true ∧
            producerForTier cfg u.id = .ok s.producer) ∧
      ∀ lenv guard pa,
        (startup cfg senv lenv tiers guard pa).handlers = none) := by
  refine ⟨initProofSubmitters_all_supported cfg senv hok tiers, fun hbad => ?_⟩
  obtain ⟨bt, hbt, hbf, hfst, hsnd⟩ :=
    initProofSubmitters_unsupported cfg senv hok tiers hbad
  refine ⟨⟨bt, hbt, hbf, hfst, hsnd⟩, fun lenv guard pa => ?_⟩
  simp [startup, hfst]

/-- Witness for C3: catalog `[Optimistic, 999]` fails with
"unsupported tier: 999" and wires no handlers. -/
theorem initProofSubmitters_tier_validation_witness :
    (initProofSubmitters cfgW ⟨fun _ => none⟩
      [⟨TierOptimisticID⟩, ⟨999⟩]).fst ≠ none ∧
    (∃ t ∈ ([⟨TierOptimisticID⟩, ⟨999⟩] : List Tier),
      supportedTier t.id = false) := by
  have h := (initProofSubmitters_tier_validation cfgW ⟨fun _ => none⟩
    [⟨TierOptimisticID⟩, ⟨999⟩] (fun _ => rfl)).2
  have hbad : ∃ t ∈ ([⟨TierOptimisticID⟩, ⟨999⟩] : List Tier),
      supportedTier t.id = false :=
    ⟨⟨999⟩, by simp, by decide⟩
  obtain ⟨⟨bt, _, _, hfst, _⟩, _⟩ := h hbad
  exact ⟨by simp [hfst], hbad⟩

/-- On success `initL1Current` performs exactly one `SetL1Current` write; on
error it performs none. -/
theorem initL1Current_err_calls (lenv : L1CurrentEnv) (sid : Option Nat) :
    ((initL1Current lenv sid).err = none ∧
      (initL1Current lenv sid).setL1CurrentCalls.length = 1) ∨
    ((initL1Current lenv sid).err ≠ none ∧
      (initL1Current lenv sid).setL1CurrentCalls = []) := by
  unfold initL1Current initL1CurrentFromOrigin
  (repeat' split) <;> simp

/-- C7: a successful `initL1Current` run calls `SetL1Current` exactly once;
a failing run never calls it; and a successful startup sets the cursor
once, before the event-handler graph is wired. -/
theorem initL1Current_sets_cursor_once
    (lenv : L1CurrentEnv) (sid : Option Nat) :
    ((initL1Current lenv sid).err = none →
      (initL1Current lenv sid).setL1CurrentCalls.length = 1) ∧
    (∀ e, (initL1Current lenv sid).err = some e →
      (initL1Current lenv sid).setL1CurrentCalls = []) ∧
    (∀ cfg senv tiers guard pa, cfg.startingBlockID = sid →
      (startup cfg senv lenv tiers guard pa).err = none →
      ∃ h, (startup cfg senv lenv tiers guard pa).events =
        [.setL1CurrentEvent h, .handlersWired]) := by
  have key := initL1Current_err_calls lenv sid
  refine ⟨?_, ?_, ?_⟩
  · intro h
    rcases key with ⟨_, hl⟩ | ⟨hne, _⟩
    · exact hl
    · exact absurd h hne
  · intro e he
    rcases key with ⟨hn, _⟩ | ⟨_, hc⟩
    · rw [he] at hn
      cases hn
    · exact hc
  · intro cfg senv tiers guard pa hsid hok
    rcases key with ⟨hn, hl⟩ | ⟨hne, _⟩
    · obtain ⟨h, hcalls⟩ :
          ∃ h, (initL1Current lenv sid).setL1CurrentCalls = [h] := by
        rcases hc : (initL1Current lenv sid).setL1CurrentCalls with
          _ | ⟨a, _ | ⟨b, l⟩⟩
        · rw [hc] at hl
          simp at hl
        · exact ⟨a, rfl⟩
        · rw [hc] at hl
          simp at hl
      refine ⟨h, ?_⟩
      rcases hsub : (initProofSubmitters cfg senv tiers).fst with _ | e
      · simp [startup, hsub, hsid, hn, hcalls]
      · simp [startup, hsub] at hok
    · rcases hsub : (initProofSubmitters cfg senv tiers).fst with _ | e
      · rcases herr : (initL1Current lenv sid).err with _ | e2
        · exact absurd herr hne
        · simp [startup, hsub, hsid, herr] at hok
      · simp [startup, hsub] at hok

/-- Witness for C7: a concrete successful bootstrap writes the cursor once,
and the startup trace wires handlers after the write. -/
theorem initL1Current_sets_cursor_once_witness :
    (initL1Current lenvW none).setL1CurrentCalls.length = 1 ∧
    ∃ hd, (startup cfgW ⟨fun _ => none⟩ lenvW [⟨TierOptimisticID⟩]
        false 3).events =
      [.setL1CurrentEvent hd, .handlersWired] :=
  ⟨(initL1Current_sets_cursor_once lenvW none).1 rfl,
   (initL1Current_sets_cursor_once lenvW none).2.2 cfgW ⟨fun _ => none⟩
     [⟨TierOptimisticID⟩] false 3 rfl rfl⟩

/-- C8 counterexample: with a configured backoff cap of 10 retries, a
transport error from the allowance check inside `setApprovalAmount` is
surfaced immediately after a single allowance query — no retry happens. -/
theorem setApprovalAmount_no_retry_counterexample :
    setApprovalAmount cfgW
      { approvalEnvW with allowanceBefore := .error "connection reset" } =
      (some "connection reset", [.allowanceQuery]) ∧
    cfgW.backOffMaxRetrys = 10 :=
  ⟨rfl, rfl⟩

/-- C8 (amended): an error from the allowance check in `setApprovalAmount`
is returned immediately to the caller after exactly one allowance query,
with no retry; the configured backoff interval and maximum retry count are
instead wired into the BlockProposed event-handler options by
`initEventHandlers`. -/
theorem setApprovalAmount_no_retry
    (cfg : Config) (env : ApprovalEnv) (amount : Int) (e : Err)
    (hcfg : cfg.allowance = some amount) (hpos : 0 < amount)
    (herr : env.allowanceBefore = .error e) :
    setApprovalAmount cfg env = (some e, [.allowanceQuery]) ∧
    ∀ guard pa g,
      ((initEventHandlers cfg guard pa
          g).blockProposedHandler).opts.backOffRetryInterval =
        cfg.backOffRetryInterval ∧
      ((initEventHandlers cfg guard pa
          g).blockProposedHandler).opts.backOffMaxRetrys =
        cfg.backOffMaxRetrys := by
  have h1 : ¬ amount ≤ 0 := not_le.mpr hpos
  refine ⟨by simp [setApprovalAmount, hcfg, h1, herr], ?_⟩
  intro guard pa g
  cases guard <;> simp [initEventHandlers, BlockProposedHandler.opts]

/-- Witness for the amended C8 at a concrete environment. -/
theorem setApprovalAmount_no_retry_witness :
    setApprovalAmount cfgW
      { approvalEnvW with allowanceBefore := .error "timeout" } =
      (some "timeout", [.allowanceQuery]) ∧
    ∀ guard pa g,
      ((initEventHandlers cfgW guard pa
          g).blockProposedHandler).opts.backOffRetryInterval =
        cfgW.backOffRetryInterval ∧
      ((initEventHandlers cfgW guard pa
          g).blockProposedHandler).opts.backOffMaxRetrys =
        cfgW.backOffMaxRetrys :=
  setApprovalAmount_no_retry cfgW _ 100 "timeout" rfl (by decide) rfl

end TaikoProver
